import Mathlib

/-!
Shallow embedding of the LocalXpose GitHub-action core (retry engine,
log-based address extractor, reachability prober, shutdown sequencer,
tunnel process controller) together with theorems settling the frozen
claims about its natural-language specification.

Conventions of the embedding:
* asynchronous TypeScript code is compiled to pure Lean functions over
  explicit oracles: `clock : Nat → Int` gives the value returned by the
  `timeProvider` at its n-th call, `fn : Nat → Except String T` gives the
  outcome of the retried operation at attempt n (1-indexed), and similar
  oracles drive process liveness probes, log reads and HTTP probes;
* JavaScript exceptions become `Except String`; the message strings are
  reproduced verbatim from the source;
* the unbounded `while (true)` retry loop takes a fuel argument; `none`
  means the fuel was insufficient, every claim is settled with enough fuel.
-/

namespace LXAction

deriving instance DecidableEq for Except

/-- Embeds the `RetryError` class of `src/retry.ts`: the wrapping message
and the message of the last underlying error. -/
structure RetryErrorS where
  message : String
  lastError : String
deriving DecidableEq, Repr

/-- Observable outcome of one run of the retry loop: the returned value or
the terminal `RetryError`, the list of delays actually awaited (one entry
per invocation of the delay function, in order), and the number of
attempts performed. -/
structure RunResult (T : Type) where
  outcome : Sum RetryErrorS T
  delays : List Nat
  attempts : Nat
deriving DecidableEq, Repr

/-- Embeds `shouldRetryByCount` of `retry` in `src/retry.ts`:
`maxRetries === undefined || attempts < maxRetries`. -/
def byCountB (mr : Option Nat) (k : Nat) : Bool :=
  match mr with
  | none => true
  | some m => decide (k < m)

/-- Embeds the `reason` computation of `retry` in `src/retry.ts`:
`!shouldRetryByTimeout ? 'timeout after <timeout>ms' : '<maxRetries> retries'`. -/
def retryReason (timeout : Int) (mr : Option Nat) (byTimeout : Bool) : String :=
  if byTimeout then toString (mr.getD 0) ++ " retries"
  else "timeout after " ++ toString timeout ++ "ms"

/-- Embeds the `while (true)` loop of `retry` in `src/retry.ts`.
`dp` is the delay-provider state machine (state `d`, requested
milliseconds ↦ actually awaited milliseconds and next state); the plain
`retry` uses the identity provider, `retryWithBackoff` the doubling one.
`clock k` is the `timeProvider` value at its k-th call: call 0 computes
`startTime`, and one further call happens at the failure of each attempt,
so the elapsed time observed after the failure of attempt k is
`clock k - clock 0`. -/
def retryLoop {T δ : Type} (fn : Nat → Except String T) (clock : Nat → Int)
    (timeout : Int) (delayMs : Nat) (mr : Option Nat) (dp : δ → Nat → Nat × δ) :
    Nat → Nat → δ → List Nat → Option (RunResult T)
  | 0, _, _, _ => none
  | Nat.succ fuel, a, d, acc =>
    match fn (a + 1) with
    | Except.ok r => some ⟨Sum.inr r, acc, a + 1⟩
    | Except.error e =>
      if decide (clock (a + 1) - clock 0 < timeout) && byCountB mr (a + 1) then
        retryLoop fn clock timeout delayMs mr dp fuel (a + 1)
          (dp d delayMs).2 (acc ++ [(dp d delayMs).1])
      else
        some ⟨Sum.inl ⟨"Failed after "
                ++ retryReason timeout mr (decide (clock (a + 1) - clock 0 < timeout))
                ++ ": " ++ e, e⟩, acc, a + 1⟩

/-- Delay provider of the plain `retry`: awaits exactly the requested
inter-attempt delay, no state. -/
def unitDp : Unit → Nat → Nat × Unit := fun _ ms => (ms, ())

/-- Embeds `retry` of `src/retry.ts` (with the observable trace made
explicit); `timeout`, `delayMs` and `mr` are the destructured options
(defaults 30000, 500, undefined at the call sites that rely on them). -/
def retry {T : Type} (fn : Nat → Except String T) (clock : Nat → Int)
    (timeout : Int) (delayMs : Nat) (mr : Option Nat) (fuel : Nat) :
    Option (RunResult T) :=
  retryLoop fn clock timeout delayMs mr unitDp fuel 0 () []

/-- Delay provider installed by `retryWithBackoff` in `src/retry.ts`:
awaits the current delay and doubles it, capped at 30000 ms; the
requested milliseconds argument is ignored (`_ms` in the source). -/
def backoffDp : Nat → Nat → Nat × Nat := fun cur _ => (cur, min (cur * 2) 30000)

/-- Embeds `const initialDelay = options.delay || 500` of
`retryWithBackoff`: a missing or zero (falsy) delay becomes 500. -/
def initialBackoffDelay (delayOpt : Option Nat) : Nat :=
  match delayOpt with
  | some d => if d = 0 then 500 else d
  | none => 500

/-- Embeds `retryWithBackoff` of `src/retry.ts`: the plain retry loop run
with the doubling delay provider seeded from the (falsy-defaulted)
initial delay. -/
def retryWithBackoff {T : Type} (fn : Nat → Except String T) (clock : Nat → Int)
    (timeout : Int) (delayOpt : Option Nat) (mr : Option Nat) (fuel : Nat) :
    Option (RunResult T) :=
  retryLoop fn clock timeout (delayOpt.getD 500) mr backoffDp fuel 0
    (initialBackoffDelay delayOpt) []

/-- The `currentDelay` state of `retryWithBackoff` after k updates:
`curAfter D k` is the delay awaited at the (k+1)-th delay invocation. -/
def curAfter (D : Nat) : Nat → Nat
  | 0 => D
  | k + 1 => min (curAfter D k * 2) 30000

/-- Delays produced by iterating a delay-provider state machine k times
from state d, together with the final state. -/
def dpIter {δ : Type} (dp : δ → Nat → Nat × δ) (ms : Nat) : δ → Nat → List Nat × δ
  | d, 0 => ([], d)
  | d, k + 1 =>
    let p := dp d ms
    let r := dpIter dp ms p.2 k
    (p.1 :: r.1, r.2)

theorem dpIter_unit (ms : Nat) : ∀ k, dpIter unitDp ms () k = (List.replicate k ms, ()) := by
  intro k
  induction k with
  | zero => rfl
  | succ k ih => simp [dpIter, unitDp, ih, List.replicate]

theorem curAfter_shift (D : Nat) : ∀ k, curAfter (curAfter D 1) k = curAfter D (k + 1) := by
  intro k
  induction k with
  | zero => rfl
  | succ k ih =>
    show min (curAfter (curAfter D 1) k * 2) 30000 = min (curAfter D (k + 1) * 2) 30000
    rw [ih]

theorem dpIter_backoff (ms : Nat) :
    ∀ k D, dpIter backoffDp ms D k = ((List.range k).map (curAfter D), curAfter D k) := by
  intro k
  induction k with
  | zero => intro D; rfl
  | succ k ih =>
    intro D
    have hstep : dpIter backoffDp ms D (k + 1)
        = (D :: (dpIter backoffDp ms (curAfter D 1) k).1,
           (dpIter backoffDp ms (curAfter D 1) k).2) := rfl
    rw [hstep, ih (curAfter D 1)]
    simp only [Prod.mk.injEq]
    refine ⟨?_, curAfter_shift D k⟩
    rw [List.range_succ_eq_map, List.map_cons, List.map_map]
    refine congrArg₂ List.cons rfl ?_
    apply List.map_congr_left
    intro i _
    simp [Function.comp, curAfter_shift]

theorem curAfter_formula (D : Nat) : ∀ k, 1 ≤ k → curAfter D k = min (D * 2 ^ k) 30000 := by
  intro k
  induction k with
  | zero => intro h; omega
  | succ k ih =>
    intro _
    match k, ih with
    | 0, _ =>
      show min (D * 2) 30000 = min (D * 2 ^ 1) 30000
      norm_num
    | k + 1, ih =>
      have h := ih (by omega)
      show min (curAfter D (k + 1) * 2) 30000 = min (D * 2 ^ (k + 2)) 30000
      rw [h]
      rcases Nat.le_total (D * 2 ^ (k + 1)) 30000 with hle | hle
      · rw [Nat.min_eq_left hle]
        have : D * 2 ^ (k + 2) = D * 2 ^ (k + 1) * 2 := by ring
        rw [this]
      · rw [Nat.min_eq_right hle]
        have hx : D * 2 ^ (k + 2) = D * 2 ^ (k + 1) * 2 := by ring
        rw [hx, Nat.min_eq_right (by omega), Nat.min_eq_right (by omega)]

theorem retryLoop_allFail_terminal {T δ : Type} (fn : Nat → Except String T)
    (clock : Nat → Int) (timeout : Int) (ms : Nat) (mr : Option Nat)
    (dp : δ → Nat → Nat × δ) (E : Nat → String) (n : Nat) :
    ∀ fuel a d acc,
    (∀ k, a < k → k ≤ n → fn k = Except.error (E k)) →
    (∀ k, a < k → k < n →
      (decide (clock k - clock 0 < timeout) && byCountB mr k) = true) →
    ((decide (clock n - clock 0 < timeout) && byCountB mr n) = false) →
    a < n → n - a ≤ fuel →
    retryLoop fn clock timeout ms mr dp fuel a d acc =
      some ⟨Sum.inl ⟨"Failed after "
              ++ retryReason timeout mr (decide (clock n - clock 0 < timeout))
              ++ ": " ++ E n, E n⟩,
            acc ++ (dpIter dp ms d (n - a - 1)).1, n⟩ := by
  intro fuel
  induction fuel with
  | zero => intro a _ _ _ _ _ han hfuel; omega
  | succ fuel ih =>
    intro a d acc hfn hcont hstop han _
    rw [retryLoop, hfn (a + 1) (by omega) (by omega)]
    by_cases hn : a + 1 = n
    · rw [hn, hstop]
      simp only [Bool.false_eq_true, if_false]
      have h0 : n - a - 1 = 0 := by omega
      rw [h0]
      simp [dpIter]
    · have hc := hcont (a + 1) (by omega) (by omega)
      rw [hc]
      simp only [if_true]
      rw [ih (a + 1) (dp d ms).2 (acc ++ [(dp d ms).1])
        (fun k h1 h2 => hfn k (by omega) h2)
        (fun k h1 h2 => hcont k (by omega) h2) hstop (by omega) (by omega)]
      have harith : n - a - 1 = (n - (a + 1) - 1) + 1 := by omega
      rw [harith]
      simp [dpIter]

theorem retryLoop_allFail_isError {T δ : Type} (fn : Nat → Except String T)
    (clock : Nat → Int) (timeout : Int) (ms : Nat) (m : Nat)
    (dp : δ → Nat → Nat × δ) :
    ∀ fuel a d acc,
    (∀ k, a < k → k ≤ m → ∃ e, fn k = Except.error e) →
    a < m → m - a ≤ fuel →
    ∃ err dl n, retryLoop fn clock timeout ms (some m) dp fuel a d acc =
      some ⟨Sum.inl err, dl, n⟩ := by
  intro fuel
  induction fuel with
  | zero => intro a _ _ _ ham hfuel; omega
  | succ fuel ih =>
    intro a d acc hfn ham _
    obtain ⟨e, he⟩ := hfn (a + 1) (by omega) (by omega)
    rw [retryLoop, he]
    by_cases hm : a + 1 = m
    · have hcnt : byCountB (some m) (a + 1) = false := by
        simp [byCountB, hm]
      rw [hcnt, Bool.and_false]
      simp only [Bool.false_eq_true, if_false]
      exact ⟨_, _, _, rfl⟩
    · by_cases ht : (decide (clock (a + 1) - clock 0 < timeout)
          && byCountB (some m) (a + 1)) = true
      · rw [ht]
        simp only [if_true]
        exact ih (a + 1) (dp d ms).2 (acc ++ [(dp d ms).1])
          (fun k h1 h2 => hfn k (by omega) h2) (by omega) (by omega)
      · rw [Bool.not_eq_true] at ht
        rw [ht]
        simp only [Bool.false_eq_true, if_false]
        exact ⟨_, _, _, rfl⟩

theorem retryLoop_error_inv {T δ : Type} (fn : Nat → Except String T)
    (clock : Nat → Int) (timeout : Int) (ms : Nat) (mr : Option Nat)
    (dp : δ → Nat → Nat × δ) :
    ∀ fuel a d acc err dl n,
    retryLoop fn clock timeout ms mr dp fuel a d acc = some ⟨Sum.inl err, dl, n⟩ →
    ∃ e, fn n = Except.error e ∧
      err = ⟨"Failed after "
              ++ retryReason timeout mr (decide (clock n - clock 0 < timeout))
              ++ ": " ++ e, e⟩ := by
  intro fuel
  induction fuel with
  | zero => intro a d acc err dl n h; simp [retryLoop] at h
  | succ fuel ih =>
    intro a d acc err dl n h
    rw [retryLoop] at h
    revert h
    cases hfn : fn (a + 1) with
    | ok r =>
      intro h
      simp only [Option.some.injEq, RunResult.mk.injEq] at h
      exact absurd h.1 (by simp)
    | error e =>
      by_cases hc : (decide (clock (a + 1) - clock 0 < timeout)
          && byCountB mr (a + 1)) = true
      · rw [hc]
        simp only [if_true]
        intro h
        exact ih (a + 1) (dp d ms).2 (acc ++ [(dp d ms).1]) err dl n h
      · rw [Bool.not_eq_true] at hc
        rw [hc]
        simp only [Bool.false_eq_true, if_false, Option.some.injEq,
          RunResult.mk.injEq]
        intro h
        obtain ⟨h1, _, h3⟩ := h
        subst h3
        exact ⟨e, hfn, (Sum.inl.inj h1).symm⟩

/-! String utilities embedding the JavaScript string operations used by
`tunnel.ts` and `tunnel-verify.ts` (regex match and `String.includes`). -/

/-- Does the list start with the given pattern? -/
def listStarts : List Char → List Char → Bool
  | [], _ => true
  | _ :: _, [] => false
  | p :: ps, c :: cs => p == c && listStarts ps cs

/-- Does the haystack contain the pattern as a contiguous sublist
(JavaScript `String.includes`)? -/
def containsSub (pat : List Char) : List Char → Bool
  | [] => listStarts pat []
  | c :: cs => listStarts pat (c :: cs) || containsSub pat cs

/-- JavaScript `hay.includes(pat)`. -/
def includesStr (hay pat : String) : Bool := containsSub pat.toList hay.toList

/-- Character class `[a-zA-Z0-9.-]` of the hostname regex in
`waitForTunnel` (`src/tunnel.ts`). -/
def isHostChar (c : Char) : Bool := c.isAlpha || c.isDigit || c == '.' || c == '-'

/-- The fixed literal `.loclx.io` of the hostname regex. -/
def lxSuffix : List Char := ['.', 'l', 'o', 'c', 'l', 'x', '.', 'i', 'o']

/-- Length of the maximal prefix of `[a-zA-Z0-9.-]` characters. -/
def hostRunLen : List Char → Nat
  | [] => 0
  | c :: cs => if isHostChar c then hostRunLen cs + 1 else 0

/-- Greedy backtracking of `[a-zA-Z0-9.-]+` before the literal
`.loclx.io`: the largest `k ≥ 1` (searched downward from the maximal
class run, as the regex engine does) such that the literal starts right
after the first k characters. -/
def bestK (cs : List Char) : Nat → Option Nat
  | 0 => none
  | k + 1 => if listStarts lxSuffix (cs.drop (k + 1)) then some (k + 1)
             else bestK cs k

/-- The regex match of `/([a-zA-Z0-9.-]+\.loclx\.io)/` anchored at the
current position: the matched characters, if any. -/
def matchAt (cs : List Char) : Option (List Char) :=
  match bestK cs (hostRunLen cs) with
  | some k => some (cs.take (k + 9))
  | none => none

/-- Leftmost match of the hostname regex over the whole text
(JavaScript `String.match` scans start positions left to right). -/
def findMatch : List Char → Option (List Char)
  | [] => none
  | c :: cs =>
    match matchAt (c :: cs) with
    | some m => some m
    | none => findMatch cs

/-- Embeds `logContent.match(/([a-zA-Z0-9.-]+\.loclx\.io)/)` of
`waitForTunnel` in `src/tunnel.ts`: the captured hostname, if any. -/
def extractHostname (s : String) : Option String :=
  (findMatch s.toList).map fun l => String.mk l

/-! Log-based address extractor (`waitForTunnel` in `src/tunnel.ts`). -/

/-- One attempt of the operation retried by `waitForTunnel`
(`src/tunnel.ts`): read the log (`logs k` is the content seen at attempt
k), extract a hostname; on success return `(url, hostname)`; otherwise a
liveness probe (`alive k`) decides between the transient not-found error
and the process-exited error. -/
def waitAttempt (logs : Nat → String) (alive : Nat → Bool) (k : Nat) :
    Except String (String × String) :=
  match extractHostname (logs k) with
  | some h => Except.ok ("https://" ++ h, h)
  | none =>
    if alive k then Except.error "Tunnel URL not found in log yet"
    else Except.error "Tunnel process exited unexpectedly"

/-- Embeds `waitForTunnel` of `src/tunnel.ts`: retry the log poll with
`delay: 500`, no `maxRetries`, bound by `timeout`; on `RetryError`
exhaustion, re-raise the process-exit failure verbatim when it was the
last underlying error, otherwise raise the generic timeout failure.
Returns the observable outcome together with the awaited delays and the
attempt count. -/
def waitForTunnel (logs : Nat → String) (alive : Nat → Bool) (clock : Nat → Int)
    (timeout : Int) (fuel : Nat) :
    Option (Except String (String × String) × List Nat × Nat) :=
  match retry (waitAttempt logs alive) clock timeout 500 none fuel with
  | none => none
  | some r =>
    some (match r.outcome with
      | Sum.inr v => (Except.ok v, r.delays, r.attempts)
      | Sum.inl err =>
        (if err.lastError == "Tunnel process exited unexpectedly" then
           Except.error "Tunnel process exited unexpectedly"
         else
           Except.error ("Timeout waiting for tunnel to establish after "
             ++ toString timeout ++ "ms"),
         r.delays, r.attempts))

/-! Reachability prober (`verifyTunnelReachability` and
`waitForTunnelReady` in `tunnel-verify.ts`). -/

/-- Upper-case letters `[A-Z]` of the LocalXpose error-page title regex. -/
def isUpperAZ (c : Char) : Bool := 'A' ≤ c && c ≤ 'Z'

/-- JavaScript `\s` (restricted to the ASCII whitespace actually produced
by HTML bodies). -/
def isSpaceJS (c : Char) : Bool :=
  c == ' ' || c == '\t' || c == '\n' || c == '\r' || c == '\x0b' || c == '\x0c'

/-- Character class `[A-Z\s]` of the error-page title regex. -/
def isTitleChar (c : Char) : Bool := isUpperAZ c || isSpaceJS c

/-- Length of the maximal prefix of `[A-Z\s]` characters. -/
def titleRunLen : List Char → Nat
  | [] => 0
  | c :: cs => if isTitleChar c then titleRunLen cs + 1 else 0

/-- The regex `/<title>\d{3}\s+[A-Z\s]+<\/title>/` anchored at the current
position. After the literal and the three digits, `\s+[A-Z\s]+` can only
end at the maximal `[A-Z\s]` run (the closing `<` is outside the class),
so a match requires the run to start with whitespace, have length at
least two, and be followed by the closing literal. -/
def titleErrAt (cs : List Char) : Bool :=
  listStarts "<title>".toList cs &&
    (let r1 := cs.drop 7
     match r1 with
     | d1 :: d2 :: d3 :: rest =>
       d1.isDigit && d2.isDigit && d3.isDigit &&
         (match rest with
          | [] => false
          | c :: _ =>
            isSpaceJS c &&
              decide (2 ≤ titleRunLen rest) &&
              listStarts "</title>".toList (rest.drop (titleRunLen rest)))
     | _ => false)

/-- Scan of the error-page title regex over the whole body (truthiness of
JavaScript `text.match(...)`). -/
def titleErrMatch : List Char → Bool
  | [] => false
  | c :: cs => titleErrAt (c :: cs) || titleErrMatch cs

/-- One HTTP probe in `verifyTunnelReachability`: the observable responses
of the HEAD request (status; `aborted` set when the 5-second sub-timeout
fires) and of the follow-up GET (body text), when one is issued. -/
structure ProbeEnv where
  aborted : Bool
  headStatus : Nat
  getBody : String
deriving DecidableEq, Repr

/-- The full-title marker tested by the 404 branch of
`verifyTunnelReachability`. -/
def tunnel404Marker : String := "<title>404 TUNNEL NOT FOUND</title>"

/-- Embeds one attempt of the operation retried by
`verifyTunnelReachability` in `tunnel-verify.ts`. Returns the attempt
outcome (`true` on a reachable status, an error message otherwise) and
whether a follow-up GET was issued. -/
def probeAttempt (e : ProbeEnv) : Except String Bool × Bool :=
  if e.aborted then (Except.error "Request timeout - tunnel not responding", false)
  else if e.headStatus == 404 then
    if includesStr e.getBody tunnel404Marker then
      (Except.error "LocalXpose returned: 404 TUNNEL NOT FOUND", true)
    else
      (Except.error ("Tunnel returned status " ++ toString e.headStatus), true)
  else if (200 ≤ e.headStatus && e.headStatus ≤ 299)
      || (300 ≤ e.headStatus && e.headStatus < 400) then
    (Except.ok true, false)
  else if e.headStatus == 400 || e.headStatus == 502 then
    if titleErrMatch e.getBody.toList then
      (Except.error ("LocalXpose error: " ++ toString e.headStatus), true)
    else
      (Except.error ("Tunnel returned status " ++ toString e.headStatus), true)
  else
    (Except.error ("Tunnel returned status " ++ toString e.headStatus), false)

/-- The retry run performed inside `verifyTunnelReachability`:
`maxRetries: 10`, `delay: 1000`, bound by the timeout budget. -/
def verifyRun (envs : Nat → ProbeEnv) (clock : Nat → Int) (timeout : Int)
    (fuel : Nat) : Option (RunResult Bool) :=
  retry (fun k => (probeAttempt (envs k)).1) clock timeout 1000 (some 10) fuel

/-- Embeds `verifyTunnelReachability` of `tunnel-verify.ts`: `true` when
the retry run completes, `false` when it exhausts (the `RetryError` is
caught, logged as a warning and swallowed). -/
def verifyTunnelReachability (envs : Nat → ProbeEnv) (clock : Nat → Int)
    (timeout : Int) (fuel : Nat) : Option Bool :=
  match verifyRun envs clock timeout fuel with
  | none => none
  | some r =>
    match r.outcome with
    | Sum.inr _ => some true
    | Sum.inl _ => some false

/-- The message of the fatal failure raised by `waitForTunnelReady`. -/
def readyFailMsg : String :=
  "Tunnel URL was generated but is not reachable. This may indicate a LocalXpose service issue."

/-- Embeds `waitForTunnelReady` of `tunnel-verify.ts`: propagate a fatal
failure exactly when `verifyTunnelReachability` returned `false`. -/
def waitForTunnelReady (envs : Nat → ProbeEnv) (clock : Nat → Int)
    (timeout : Int) (fuel : Nat) : Option (Except String Unit) :=
  match verifyTunnelReachability envs clock timeout fuel with
  | none => none
  | some true => some (Except.ok ())
  | some false => some (Except.error readyFailMsg)

/-! Shutdown sequencer (`cleanup` in `src/cleanup.ts`). -/

/-- Severity of a diagnostic line (`core.debug` / `core.info` /
`core.warning`). -/
inductive LogLevel where
  | debug
  | info
  | warning
deriving DecidableEq, Repr

/-- Signals sent through `process.kill` in `cleanup`: signal `0` is the
non-destructive liveness probe. -/
inductive Sig where
  | probe
  | sigint
  | sigterm
  | sigkill
deriving DecidableEq, Repr

/-- Observable events of a `cleanup` run: a `process.kill` call (which
may then fail, per the environment), a `setTimeout` dwell, and a
diagnostic line. -/
inductive Ev where
  | kill (s : Sig)
  | dwell (ms : Nat)
  | log (lvl : LogLevel) (msg : String)
deriving DecidableEq, Repr

/-- Environment of one `cleanup` run: the two `core.getState` reads (which
may throw), the outcome of each successive `process.kill` call (`true`
means the call returns, `false` means it throws — for signal `0`, that the
process is absent), and the outcome of `fs.unlink` (`none` means success,
`some e` the error text of the rejection). -/
structure CleanupEnv where
  pidState : Except String String
  logState : Except String String
  killOk : Nat → Bool
  unlinkErr : Option String

/-- JavaScript `parseInt(s, 10)`: skip leading whitespace, optional sign,
then the maximal digit prefix; `none` models `NaN`. -/
def parseIntJs (s : String) : Option Int :=
  let cs := s.toList.dropWhile fun c =>
    c == ' ' || c == '\t' || c == '\n' || c == '\r'
  let p : Bool × List Char :=
    match cs with
    | '-' :: r => (true, r)
    | '+' :: r => (false, r)
    | r => (false, r)
  let ds := p.2.takeWhile Char.isDigit
  if ds.isEmpty then none
  else
    some ((if p.1 then -1 else 1)
      * Int.ofNat (ds.foldl (fun a c => a * 10 + (c.toNat - 48)) 0))

/-- Template-literal rendering of the parsed pid (`NaN` when parsing
failed). -/
def renderParseInt (s : String) : String :=
  match parseIntJs s with
  | none => "NaN"
  | some i => toString i

/-- Embeds the signal-escalation block of `cleanup` (`src/cleanup.ts`),
from the initial `process.kill(pid, 0)` liveness probe onward. Kill calls
are numbered in execution order; `ok n = false` means call n threw, which
the surrounding `try`/`catch` nesting routes to the matching diagnostic. -/
def escalate (ok : Nat → Bool) : List Ev :=
  if ok 0 = false then
    [Ev.kill Sig.probe, Ev.log LogLevel.info "Tunnel process already stopped"]
  else if ok 1 = false then
    [Ev.kill Sig.probe, Ev.kill Sig.sigint,
     Ev.log LogLevel.info "Tunnel process already stopped"]
  else
    [Ev.kill Sig.probe, Ev.kill Sig.sigint,
     Ev.log LogLevel.debug "Sent SIGINT to tunnel process", Ev.dwell 2000] ++
    (if ok 2 = false then
      [Ev.kill Sig.probe, Ev.log LogLevel.info "Tunnel process terminated gracefully"]
     else if ok 3 = false then
      [Ev.kill Sig.probe, Ev.kill Sig.sigterm,
       Ev.log LogLevel.info "Tunnel process terminated gracefully"]
     else
      [Ev.kill Sig.probe, Ev.kill Sig.sigterm,
       Ev.log LogLevel.debug "Sent SIGTERM to tunnel process", Ev.dwell 1000] ++
      (if ok 4 = false then
        [Ev.kill Sig.probe,
         Ev.log LogLevel.info "Tunnel process terminated after SIGTERM"]
       else if ok 5 = false then
        [Ev.kill Sig.probe, Ev.kill Sig.sigkill,
         Ev.log LogLevel.info "Tunnel process terminated after SIGTERM"]
       else
        [Ev.kill Sig.probe, Ev.kill Sig.sigkill,
         Ev.log LogLevel.warning
           "Had to force kill tunnel process - this may cause issues with reserved subdomains"]))

/-- The body of the outer `try` of `cleanup`: the emitted events together
with the error, if one escapes to the outer handler (only the
`core.getState` reads can throw there; the kill block and the unlink block
catch their own failures). -/
def cleanupBody (env : CleanupEnv) : List Ev × Option String :=
  let t0 := [Ev.log LogLevel.info "Running LocalXpose cleanup..."]
  match env.pidState with
  | Except.error e => (t0, some e)
  | Except.ok pidStr =>
    match env.logState with
    | Except.error e => (t0, some e)
    | Except.ok logPath =>
      let t1 := t0 ++
        (if pidStr ≠ "" then
          [Ev.log LogLevel.info
            ("Stopping tunnel process (PID: " ++ renderParseInt pidStr ++ ")...")]
            ++ escalate env.killOk
         else [])
      let t2 := t1 ++
        (if logPath ≠ "" then
          (match env.unlinkErr with
           | none => [Ev.log LogLevel.info ("Cleaned up log file: " ++ logPath)]
           | some e => [Ev.log LogLevel.debug ("Failed to clean up log file: " ++ e)])
         else [])
      (t2 ++ [Ev.log LogLevel.info "✅ LocalXpose cleanup completed"], none)

/-- Embeds `cleanup` of `src/cleanup.ts`: the outer `catch` converts any
escaping error into a warning line, so the function always returns its
event trace. -/
def cleanup (env : CleanupEnv) : List Ev :=
  match cleanupBody env with
  | (t, none) => t
  | (t, some e) => t ++ [Ev.log LogLevel.warning ("Cleanup error: " ++ e)]

/-- Is the event a `process.kill` call or a dwell (as opposed to a
diagnostic line)? -/
def isKillOrDwell : Ev → Bool
  | Ev.kill _ => true
  | Ev.dwell _ => true
  | Ev.log _ _ => false

/-- Keep only the `process.kill` calls and the dwells of a trace. -/
def killsAndDwells (t : List Ev) : List Ev := t.filter isKillOrDwell

/-! Tunnel process controller (`createTunnel` in `src/tunnel.ts`):
command-line and environment construction. -/

/-- Embeds the `TunnelOptions` interface of `src/tunnel.ts`. -/
structure TunnelOptions where
  port : Nat
  type : String
  region : String
  subdomain : Option String
  token : Option String
deriving DecidableEq, Repr

/-- Embeds the `args` construction of `createTunnel` in `src/tunnel.ts`:
`['tunnel', type, '--to=<port>']`, then `--region=` when the region is
truthy, then `--subdomain=` when the subdomain is truthy. -/
def buildArgs (o : TunnelOptions) : List String :=
  (["tunnel", o.type, "--to=" ++ toString o.port]
    ++ (if o.region ≠ "" then ["--region=" ++ o.region] else []))
    ++ (match o.subdomain with
        | some s => if s ≠ "" then ["--subdomain=" ++ s] else []
        | none => [])

/-- The fixed environment variable name receiving the token. -/
def tokenEnvVar : String := "LX_ACCESS_TOKEN"

/-- Embeds the `env` construction of `createTunnel`: a copy of the parent
environment, with `LX_ACCESS_TOKEN` set when the token is truthy. -/
def childEnv (base : String → Option String) (o : TunnelOptions) :
    String → Option String :=
  fun k =>
    match o.token with
    | some t => if t ≠ "" then (if k = tokenEnvVar then some t else base k) else base k
    | none => base k

/-! Claim theorems. -/

/-- Claim C6: for every n ≥ 1 and every retry configuration in which
`maxRetries = n` bounds the loop before the timeout does, if the operation
fails n consecutive times then `retry` invokes the delay function exactly
n−1 times (each time awaiting the configured delay) and then fails with a
`RetryError` carrying the last underlying failure and a reason string
citing the attempt count. -/
theorem retry_maxAttempts_delay_count {T : Type} (fn : Nat → Except String T)
    (E : Nat → String) (clock : Nat → Int) (timeout : Int) (delayMs : Nat)
    (n fuel : Nat) (hn : 1 ≤ n)
    (hfail : ∀ k, 1 ≤ k → k ≤ n → fn k = Except.error (E k))
    (htime : ∀ k, 1 ≤ k → k ≤ n → clock k - clock 0 < timeout)
    (hfuel : n ≤ fuel) :
    retry fn clock timeout delayMs (some n) fuel =
      some ⟨Sum.inl ⟨"Failed after " ++ (toString n ++ " retries") ++ ": " ++ E n,
              E n⟩,
            List.replicate (n - 1) delayMs, n⟩ := by
  have h := retryLoop_allFail_terminal fn clock timeout delayMs (some n) unitDp E n
    fuel 0 () [] hfail
    (fun k h1 h2 => by
      have ht := htime k h1 (Nat.le_of_lt h2)
      simp [byCountB, h2, ht])
    (by simp [byCountB]) hn (by omega)
  rw [retry, h, dpIter_unit]
  have hd : decide (clock n - clock 0 < timeout) = true :=
    decide_eq_true (htime n hn le_rfl)
  rw [hd]
  simp [retryReason]

/-- Claim C6 witness: two consecutive failures under `maxRetries = 2` give
exactly one delay invocation and the attempt-count reason. -/
theorem retry_maxAttempts_delay_count_witness :
    retry (T := Unit) (fun _ => Except.error "boom") (fun _ => 0) 1000 500 (some 2) 2
      = some ⟨Sum.inl ⟨"Failed after 2 retries: boom", "boom"⟩, [500], 2⟩ := by
  have h := retry_maxAttempts_delay_count (T := Unit)
    (fun _ => Except.error "boom") (fun _ => "boom") (fun _ => 0) 1000 500 2 2
    (by omega) (fun _ _ _ => rfl) (fun k _ _ => by norm_num) (by omega)
  exact h

/-- Claim C7, counterexample: with initial delay D = 40000 the delay
awaited after the first failure is 40000, not
`min(D * 2^(1-1), 30000) = 30000` — the 30-second ceiling is not applied
to the first delay. -/
theorem retryWithBackoff_first_delay_uncapped :
    retryWithBackoff (T := Unit) (fun _ => Except.error "e") (fun _ => 0) 100000
        (some 40000) (some 2) 2
      = some ⟨Sum.inl ⟨"Failed after 2 retries: e", "e"⟩, [40000], 2⟩
    ∧ 40000 ≠ min (40000 * 2 ^ (1 - 1)) 30000 := by decide

/-- Claim C7 (amended): for every `retryWithBackoff` invocation with a
nonzero initial delay D, the delay awaited after the nth consecutive
failure is `curAfter D (n-1)`, which equals D for n = 1 (uncapped, even
when D exceeds 30000) and `min(D * 2^(n-1), 30000)` for every n ≥ 2; when
D ≤ 30000 the capped formula also covers n = 1, so the claimed schedule
(e.g. 10000, 20000, 30000, 30000, … for D = 10000) holds exactly for all
initial delays not above the ceiling. -/
theorem retryWithBackoff_delay_schedule {T : Type} (fn : Nat → Except String T)
    (E : Nat → String) (clock : Nat → Int) (timeout : Int) (D : Nat)
    (n fuel : Nat) (hD : D ≠ 0) (hn : 1 ≤ n)
    (hfail : ∀ k, 1 ≤ k → k ≤ n → fn k = Except.error (E k))
    (htime : ∀ k, 1 ≤ k → k ≤ n → clock k - clock 0 < timeout)
    (hfuel : n ≤ fuel) :
    retryWithBackoff fn clock timeout (some D) (some n) fuel =
      some ⟨Sum.inl ⟨"Failed after " ++ (toString n ++ " retries") ++ ": " ++ E n,
              E n⟩,
            (List.range (n - 1)).map (curAfter D), n⟩
    ∧ (∀ i, 1 ≤ i → curAfter D i = min (D * 2 ^ i) 30000)
    ∧ curAfter D 0 = D
    ∧ (D ≤ 30000 → curAfter D 0 = min (D * 2 ^ 0) 30000) := by
  refine ⟨?_, curAfter_formula D, rfl, ?_⟩
  · have h := retryLoop_allFail_terminal fn clock timeout D (some n) backoffDp E n
      fuel 0 D [] hfail
      (fun k h1 h2 => by
        have ht := htime k h1 (Nat.le_of_lt h2)
        simp [byCountB, h2, ht])
      (by simp [byCountB]) hn (by omega)
    have hinit : initialBackoffDelay (some D) = D := by
      simp [initialBackoffDelay, hD]
    rw [retryWithBackoff, hinit]
    have hms : (some D).getD 500 = D := rfl
    rw [hms, h, dpIter_backoff]
    have hd : decide (clock n - clock 0 < timeout) = true :=
      decide_eq_true (htime n hn le_rfl)
    rw [hd]
    simp [retryReason]
  · intro hle
    show D = min (D * 2 ^ 0) 30000
    simp only [pow_zero, Nat.mul_one]
    omega

/-- Claim C7 (amended) witness: D = 10000 yields the successive delays
10000, 20000, 30000, 30000 over five attempts. -/
theorem retryWithBackoff_delay_schedule_witness :
    retryWithBackoff (T := Unit) (fun _ => Except.error "e") (fun _ => 0) 100000
        (some 10000) (some 5) 5
      = some ⟨Sum.inl ⟨"Failed after 5 retries: e", "e"⟩,
              [10000, 20000, 30000, 30000], 5⟩ := by
  have h := (retryWithBackoff_delay_schedule (T := Unit)
    (fun _ => Except.error "e") (fun _ => "e") (fun _ => 0) 100000 10000 5 5
    (by omega) (by omega) (fun _ _ _ => rfl) (fun k _ _ => by norm_num)
    (by omega)).1
  simpa using h

/-- Claim C8: with a zero or negative timeout and a non-decreasing clock,
the operation is attempted exactly once, the delay function is never
invoked, and any failure of that single attempt is immediately terminal,
wrapped in a `RetryError` with the timeout reason. -/
theorem retry_timeout_nonpos {T : Type} (fn : Nat → Except String T)
    (clock : Nat → Int) (timeout : Int) (delayMs : Nat) (mr : Option Nat)
    (fuel : Nat) (htz : timeout ≤ 0) (hclock : clock 0 ≤ clock 1)
    (hfuel : 1 ≤ fuel) :
    retry fn clock timeout delayMs mr fuel =
      some (match fn 1 with
        | Except.ok r => ⟨Sum.inr r, [], 1⟩
        | Except.error e =>
          ⟨Sum.inl ⟨"Failed after "
              ++ ("timeout after " ++ toString timeout ++ "ms") ++ ": " ++ e, e⟩,
           [], 1⟩) := by
  cases fuel with
  | zero => omega
  | succ f =>
    rw [retry, retryLoop]
    simp only [Nat.zero_add]
    cases hfn : fn 1 with
    | ok r => rfl
    | error e =>
      have hnt : decide (clock 1 - clock 0 < timeout) = false := by
        rw [decide_eq_false_iff_not]
        omega
      simp only [hnt, Bool.false_and, Bool.false_eq_true, if_false, retryReason]

/-- Claim C8 witness: timeout 0 with the identity clock attempts once and
fails terminally with the timeout reason and no delay. -/
theorem retry_timeout_nonpos_witness :
    retry (T := Unit) (fun _ => Except.error "boom") (fun k => (k : Int)) 0 500 none 1
      = some ⟨Sum.inl ⟨"Failed after timeout after 0ms: boom", "boom"⟩, [], 1⟩ := by
  have h := retry_timeout_nonpos (T := Unit) (fun _ => Except.error "boom")
    (fun k => (k : Int)) 0 500 none 1 (by omega) (by norm_num) (by omega)
  exact h

/-- Claim C10: when a `retry` run ends in a `RetryError` at attempt n, the
error reason is the timeout one whenever the elapsed time has reached the
timeout (in particular when both bounds are exhausted simultaneously),
and the attempt-count reason is used only when the timeout bound alone
would still permit another attempt. -/
theorem retry_reason_tiebreak {T : Type} (fn : Nat → Except String T)
    (clock : Nat → Int) (timeout : Int) (delayMs : Nat) (mr : Option Nat)
    (fuel : Nat) (err : RetryErrorS) (dl : List Nat) (n : Nat)
    (hrun : retry fn clock timeout delayMs mr fuel = some ⟨Sum.inl err, dl, n⟩) :
    (¬(clock n - clock 0 < timeout) →
      err.message = "Failed after "
        ++ ("timeout after " ++ toString timeout ++ "ms") ++ ": " ++ err.lastError)
    ∧ ((clock n - clock 0 < timeout) →
      err.message = "Failed after "
        ++ (toString (mr.getD 0) ++ " retries") ++ ": " ++ err.lastError) := by
  obtain ⟨e, _, herr⟩ :=
    retryLoop_error_inv fn clock timeout delayMs mr unitDp fuel 0 () [] err dl n hrun
  subst herr
  constructor
  · intro h
    have hd : decide (clock n - clock 0 < timeout) = false := by
      rw [decide_eq_false_iff_not]
      exact h
    simp [hd, retryReason]
  · intro h
    have hd : decide (clock n - clock 0 < timeout) = true := decide_eq_true h
    simp [hd, retryReason]

/-- Claim C10 witness: a run in which attempt 2 exhausts the timeout and
the retry count simultaneously reports the timeout reason. -/
theorem retry_reason_tiebreak_witness :
    (RetryErrorS.mk "Failed after timeout after 100ms: boom" "boom").message
      = "Failed after " ++ ("timeout after " ++ toString (100 : Int) ++ "ms")
        ++ ": " ++ (RetryErrorS.mk "Failed after timeout after 100ms: boom" "boom").lastError := by
  have hrun : retry (T := Unit) (fun _ => Except.error "boom") (fun k => 50 * k)
      100 500 (some 2) 2
      = some ⟨Sum.inl ⟨"Failed after timeout after 100ms: boom", "boom"⟩, [500], 2⟩ := by
    decide
  have h := retry_reason_tiebreak (T := Unit) (fun _ => Except.error "boom")
    (fun k => 50 * k) 100 500 (some 2) 2
    ⟨"Failed after timeout after 100ms: boom", "boom"⟩ [500] 2 hrun
  exact h.1 (by norm_num)

/-- Claim C1, counterexample: with an empty log (so no address pattern
matches), a process that is absent from the very first attempt, clock
k = k and timeout 3, `waitForTunnel` does not fail at the attempt that
observed the absence: it performs three attempts and awaits the
inter-attempt delay twice before failing, so the process-exit condition
is one more retryable failure, not an immediate short-circuit of the
retry loop. -/
theorem waitForTunnel_no_short_circuit :
    waitForTunnel (fun _ => "") (fun _ => false) (fun k => (k : Int)) 3 5
      = some (Except.error "Tunnel process exited unexpectedly", [500, 500], 3)
    ∧ extractHostname "" = none := by decide

/-- Claim C1 (amended): when on an attempt no address has matched and the
liveness probe reports the process absent, the attempt fails with the
process-exited error, but that failure is retried like the "not ready
yet" one; when the retry loop exhausts its timeout at attempt n with it
as the last error, `waitForTunnel` re-raises 'Tunnel process exited
unexpectedly' verbatim (rather than the generic timeout message) after n
attempts and n−1 delay waits. -/
theorem waitForTunnel_exit_retried_then_unwrapped
    (logs : Nat → String) (alive : Nat → Bool) (clock : Nat → Int)
    (timeout : Int) (n fuel : Nat) (hn : 1 ≤ n)
    (hnomatch : ∀ k, 1 ≤ k → k ≤ n → extractHostname (logs k) = none)
    (hdead : ∀ k, 1 ≤ k → k ≤ n → alive k = false)
    (hcont : ∀ k, 1 ≤ k → k < n → clock k - clock 0 < timeout)
    (hstop : ¬(clock n - clock 0 < timeout))
    (hfuel : n ≤ fuel) :
    waitForTunnel logs alive clock timeout fuel
      = some (Except.error "Tunnel process exited unexpectedly",
              List.replicate (n - 1) 500, n) := by
  have hatt : ∀ k, 0 < k → k ≤ n →
      waitAttempt logs alive k
        = Except.error "Tunnel process exited unexpectedly" := by
    intro k h1 h2
    simp [waitAttempt, hnomatch k h1 h2, hdead k h1 h2]
  have h := retryLoop_allFail_terminal (waitAttempt logs alive) clock timeout 500
    none unitDp (fun _ => "Tunnel process exited unexpectedly") n fuel 0 () [] hatt
    (fun k h1 h2 => by simp [byCountB, hcont k h1 h2])
    (by simp [byCountB, hstop]) hn (by omega)
  have h2 : retry (waitAttempt logs alive) clock timeout 500 none fuel
      = some ⟨Sum.inl ⟨"Failed after "
          ++ retryReason timeout none (decide (clock n - clock 0 < timeout))
          ++ ": " ++ "Tunnel process exited unexpectedly",
          "Tunnel process exited unexpectedly"⟩,
        List.replicate (n - 1) 500, n⟩ := by
    rw [retry, h, dpIter_unit]
    simp
  rw [waitForTunnel, h2]
  simp

/-- Claim C1 (amended) witness: dead process, empty log, clock k = k,
timeout 3: the specific cause is re-raised after 3 attempts and 2 delays. -/
theorem waitForTunnel_exit_retried_then_unwrapped_witness :
    waitForTunnel (fun _ => "x") (fun _ => false) (fun k => (k : Int)) 3 7
      = some (Except.error "Tunnel process exited unexpectedly", [500, 500], 3) := by
  have h := waitForTunnel_exit_retried_then_unwrapped (fun _ => "x")
    (fun _ => false) (fun k => (k : Int)) 3 3 7 (by omega)
    (fun k _ _ => (by decide : extractHostname "x" = none)) (fun k _ _ => rfl)
    (fun k h1 h2 => by interval_cases k <;> norm_num)
    (by norm_num) (by omega)
  simpa using h

/-- Claim C2, counterexample: a GET body containing the bare marker
'404 TUNNEL NOT FOUND' without the surrounding title tag does not raise
the permanent-upstream failure: the attempt raises the generic
'Tunnel returned status 404' failure instead, because the code tests for
the full '<title>404 TUNNEL NOT FOUND</title>' string. -/
theorem probe404_bare_marker_not_permanent :
    includesStr "404 TUNNEL NOT FOUND" "404 TUNNEL NOT FOUND" = true
    ∧ probeAttempt ⟨false, 404, "404 TUNNEL NOT FOUND"⟩
        = (Except.error "Tunnel returned status 404", true)
    ∧ (Except.error "Tunnel returned status 404" : Except String Bool)
        ≠ Except.error "LocalXpose returned: 404 TUNNEL NOT FOUND" := by decide

/-- Claim C2 (amended): for every probe whose HEAD returns 404 (and was
not aborted), a follow-up GET is issued, and when its body contains the
full literal marker '<title>404 TUNNEL NOT FOUND</title>' the attempt
raises the permanent 'LocalXpose returned: 404 TUNNEL NOT FOUND' failure
(still surfaced to the retry engine as a retryable failure); when every
attempt is such a probe, `verifyTunnelReachability` returns false after
exhausting its retries. -/
theorem probe404_full_marker_permanent :
    (∀ e : ProbeEnv, e.aborted = false → e.headStatus = 404 →
      includesStr e.getBody tunnel404Marker = true →
      probeAttempt e
        = (Except.error "LocalXpose returned: 404 TUNNEL NOT FOUND", true))
    ∧ (∀ (envs : Nat → ProbeEnv) (clock : Nat → Int) (timeout : Int) (fuel : Nat),
        (∀ k, (envs k).aborted = false ∧ (envs k).headStatus = 404 ∧
          includesStr (envs k).getBody tunnel404Marker = true) →
        10 ≤ fuel →
        verifyTunnelReachability envs clock timeout fuel = some false) := by
  constructor
  · intro e h1 h2 h3
    simp [probeAttempt, h1, h2, h3]
  · intro envs clock timeout fuel hk hfuel
    obtain ⟨err, dl, n, hrun⟩ := retryLoop_allFail_isError
      (fun k => (probeAttempt (envs k)).1) clock timeout 1000 10 unitDp fuel 0 () []
      (fun k _ _ => ⟨"LocalXpose returned: 404 TUNNEL NOT FOUND", by
        obtain ⟨h1, h2, h3⟩ := hk k
        simp [probeAttempt, h1, h2, h3]⟩)
      (by omega) (by omega)
    rw [verifyTunnelReachability, verifyRun, retry, hrun]

/-- Claim C2 (amended) witness: a constant full-marker 404 probe yields
the permanent failure on each attempt and a false verification result. -/
theorem probe404_full_marker_permanent_witness :
    probeAttempt ⟨false, 404, "<title>404 TUNNEL NOT FOUND</title>"⟩
      = (Except.error "LocalXpose returned: 404 TUNNEL NOT FOUND", true)
    ∧ verifyTunnelReachability
        (fun _ => ⟨false, 404, "<title>404 TUNNEL NOT FOUND</title>"⟩)
        (fun _ => 0) 1000000 10 = some false := by
  constructor
  · exact probe404_full_marker_permanent.1 _ rfl rfl (by decide)
  · exact probe404_full_marker_permanent.2 _ _ _ _
      (fun k => ⟨rfl, rfl, by decide⟩) (by omega)

/-- Claim C3: `verifyTunnelReachability` never propagates an error to its
caller: it returns true exactly when the inner retry run completes
without exhausting its bound, and converts any exhaustion to a false
return; `waitForTunnelReady` raises the fatal not-reachable failure if
and only if `verifyTunnelReachability` returned false. -/
theorem verify_swallows_ready_propagates (envs : Nat → ProbeEnv)
    (clock : Nat → Int) (timeout : Int) (fuel : Nat) :
    (∀ r, verifyRun envs clock timeout fuel = some r →
      verifyTunnelReachability envs clock timeout fuel = some r.outcome.isRight)
    ∧ (waitForTunnelReady envs clock timeout fuel
          = some (Except.error readyFailMsg)
        ↔ verifyTunnelReachability envs clock timeout fuel = some false)
    ∧ (waitForTunnelReady envs clock timeout fuel = some (Except.ok ())
        ↔ verifyTunnelReachability envs clock timeout fuel = some true) := by
  refine ⟨?_, ?_, ?_⟩
  · intro r hr
    obtain ⟨outc, dl, att⟩ := r
    rw [verifyTunnelReachability, hr]
    cases outc <;> rfl
  · rw [waitForTunnelReady]
    cases hv : verifyTunnelReachability envs clock timeout fuel with
    | none => simp
    | some b => cases b <;> simp [readyFailMsg]
  · rw [waitForTunnelReady]
    cases hv : verifyTunnelReachability envs clock timeout fuel with
    | none => simp
    | some b => cases b <;> simp [readyFailMsg]

/-- Claim C3 witness: a constantly failing probe (HTTP 500) exhausts the
ten retries, `verifyTunnelReachability` swallows the exhaustion into
`some false`, and `waitForTunnelReady` raises the fatal failure. -/
theorem verify_swallows_ready_propagates_witness :
    verifyTunnelReachability (fun _ => ⟨false, 500, ""⟩) (fun _ => 0) 1000000 10
      = some false
    ∧ waitForTunnelReady (fun _ => ⟨false, 500, ""⟩) (fun _ => 0) 1000000 10
      = some (Except.error readyFailMsg) := by
  have h := verify_swallows_ready_propagates (fun _ => ⟨false, 500, ""⟩)
    (fun _ => 0) 1000000 10
  have hrun : verifyRun (fun _ => ⟨false, 500, ""⟩) (fun _ => 0) 1000000 10
      = some ⟨Sum.inl ⟨"Failed after 10 retries: Tunnel returned status 500",
                "Tunnel returned status 500"⟩,
              List.replicate 9 1000, 10⟩ := by decide
  have h1 := h.1 _ hrun
  exact ⟨by simpa using h1, h.2.1.mpr (by simpa using h1)⟩

/-- Claim C4: `cleanup` never raises to its caller: with the state reads
succeeding, no error escapes the kill and unlink blocks to the outer
handler (regardless of liveness-probe, signal-delivery or deletion
failures), and any error that does reach the outer handler (the state
reads) is converted into a warning log line appended to the trace, so the
function always returns a trace. -/
theorem cleanup_never_raises (env : CleanupEnv) :
    ((cleanupBody env).2 = none → cleanup env = (cleanupBody env).1)
    ∧ (∀ e, (cleanupBody env).2 = some e →
        cleanup env = (cleanupBody env).1
          ++ [Ev.log LogLevel.warning ("Cleanup error: " ++ e)])
    ∧ (∀ p q, env.pidState = Except.ok p → env.logState = Except.ok q →
        (cleanupBody env).2 = none) := by
  have hbody : cleanupBody env = ((cleanupBody env).1, (cleanupBody env).2) := rfl
  refine ⟨?_, ?_, ?_⟩
  · intro h
    rw [cleanup, hbody, h]
  · intro e h
    rw [cleanup, hbody, h]
  · intro p q hp hq
    simp only [cleanupBody, hp, hq]

/-- Claim C4 witness: a throwing state read is caught and logged as a
warning, and with successful state reads nothing escapes the inner
handlers even when every kill call and the unlink fail. -/
theorem cleanup_never_raises_witness :
    cleanup ⟨Except.error "State error", Except.ok "", fun _ => true, none⟩
      = [Ev.log LogLevel.info "Running LocalXpose cleanup...",
         Ev.log LogLevel.warning "Cleanup error: State error"]
    ∧ (cleanupBody ⟨Except.ok "invalid", Except.ok "/tmp/tunnel.log",
        fun _ => false, some "Error: ENOENT"⟩).2 = none := by
  constructor
  · have h := (cleanup_never_raises
      ⟨Except.error "State error", Except.ok "", fun _ => true, none⟩).2.1
      "State error" (by decide)
    rw [h]
    decide
  · exact (cleanup_never_raises ⟨Except.ok "invalid", Except.ok "/tmp/tunnel.log",
      fun _ => false, some "Error: ENOENT"⟩).2.2 "invalid" "/tmp/tunnel.log" rfl rfl

/-- Claim C5: in every `cleanup` run whose process is alive at the first
probe and survives the interrupt and termination signals (every kill call
returns), the kill calls and dwells are exactly: liveness probe, SIGINT,
2000 ms dwell, probe, SIGTERM, 1000 ms dwell, probe, SIGKILL — each
signal sent exactly once, in that order — and the forced-termination
warning is logged. -/
theorem cleanup_escalation_order (env : CleanupEnv) (p q : String)
    (hp : env.pidState = Except.ok p) (hpne : p ≠ "")
    (hq : env.logState = Except.ok q) (hok : ∀ n, env.killOk n = true) :
    killsAndDwells (cleanup env)
      = [Ev.kill Sig.probe, Ev.kill Sig.sigint, Ev.dwell 2000,
         Ev.kill Sig.probe, Ev.kill Sig.sigterm, Ev.dwell 1000,
         Ev.kill Sig.probe, Ev.kill Sig.sigkill]
    ∧ Ev.log LogLevel.warning
        "Had to force kill tunnel process - this may cause issues with reserved subdomains"
        ∈ cleanup env := by
  have hesc : escalate env.killOk
      = [Ev.kill Sig.probe, Ev.kill Sig.sigint,
         Ev.log LogLevel.debug "Sent SIGINT to tunnel process", Ev.dwell 2000,
         Ev.kill Sig.probe, Ev.kill Sig.sigterm,
         Ev.log LogLevel.debug "Sent SIGTERM to tunnel process", Ev.dwell 1000,
         Ev.kill Sig.probe, Ev.kill Sig.sigkill,
         Ev.log LogLevel.warning
           "Had to force kill tunnel process - this may cause issues with reserved subdomains"] := by
    simp [escalate, hok 0, hok 1, hok 2, hok 3, hok 4, hok 5]
  have hbody : cleanupBody env
      = ([Ev.log LogLevel.info "Running LocalXpose cleanup..."]
          ++ ([Ev.log LogLevel.info
                ("Stopping tunnel process (PID: " ++ renderParseInt p ++ ")...")]
              ++ escalate env.killOk)
          ++ (if q ≠ "" then
               (match env.unlinkErr with
                | none => [Ev.log LogLevel.info ("Cleaned up log file: " ++ q)]
                | some e =>
                  [Ev.log LogLevel.debug ("Failed to clean up log file: " ++ e)])
              else [])
          ++ [Ev.log LogLevel.info "✅ LocalXpose cleanup completed"], none) := by
    simp only [cleanupBody, hp, hq]
    simp [hpne]
  have hcl : cleanup env
      = [Ev.log LogLevel.info "Running LocalXpose cleanup..."]
          ++ ([Ev.log LogLevel.info
                ("Stopping tunnel process (PID: " ++ renderParseInt p ++ ")...")]
              ++ escalate env.killOk)
          ++ (if q ≠ "" then
               (match env.unlinkErr with
                | none => [Ev.log LogLevel.info ("Cleaned up log file: " ++ q)]
                | some e =>
                  [Ev.log LogLevel.debug ("Failed to clean up log file: " ++ e)])
              else [])
          ++ [Ev.log LogLevel.info "✅ LocalXpose cleanup completed"] := by
    rw [cleanup, hbody]
  constructor
  · rw [hcl, hesc, killsAndDwells]
    simp only [List.filter_append]
    cases env.unlinkErr <;> by_cases hqq : q = "" <;>
      simp [hqq, isKillOrDwell]
  · rw [hcl, hesc]
    cases env.unlinkErr <;> by_cases hqq : q = "" <;> simp [hqq]

/-- Claim C5 witness: a fully surviving process yields the exact
probe/SIGINT/dwell/probe/SIGTERM/dwell/probe/SIGKILL sequence and the
forced-termination warning. -/
theorem cleanup_escalation_order_witness :
    killsAndDwells (cleanup ⟨Except.ok "12345", Except.ok "/tmp/tunnel.log",
        fun _ => true, none⟩)
      = [Ev.kill Sig.probe, Ev.kill Sig.sigint, Ev.dwell 2000,
         Ev.kill Sig.probe, Ev.kill Sig.sigterm, Ev.dwell 1000,
         Ev.kill Sig.probe, Ev.kill Sig.sigkill]
    ∧ Ev.log LogLevel.warning
        "Had to force kill tunnel process - this may cause issues with reserved subdomains"
        ∈ cleanup ⟨Except.ok "12345", Except.ok "/tmp/tunnel.log",
            fun _ => true, none⟩ :=
  cleanup_escalation_order _ "12345" "/tmp/tunnel.log" rfl (by decide) rfl
    (fun _ => rfl)

/-- Claim C9: the spawn argument list of `createTunnel` is identical for
every pair of tunnel requests differing only in the token (the token
never contributes to any command-line argument); the argument list is
`['tunnel', type, '--to=<port>']` plus the optional region and subdomain
flags; and a (truthy) token is injected only into the child environment,
under the fixed variable `LX_ACCESS_TOKEN`, leaving every other variable
untouched. -/
theorem createTunnel_token_isolation :
    (∀ o₁ o₂ : TunnelOptions, o₁.port = o₂.port → o₁.type = o₂.type →
      o₁.region = o₂.region → o₁.subdomain = o₂.subdomain →
      buildArgs o₁ = buildArgs o₂)
    ∧ (∀ (o : TunnelOptions) (s : String), o.region ≠ "" → o.subdomain = some s →
        s ≠ "" →
        buildArgs o = ["tunnel", o.type, "--to=" ++ toString o.port,
          "--region=" ++ o.region, "--subdomain=" ++ s])
    ∧ (∀ (o : TunnelOptions) (t : String) (base : String → Option String),
        o.token = some t → t ≠ "" →
        childEnv base o tokenEnvVar = some t
        ∧ ∀ k, k ≠ tokenEnvVar → childEnv base o k = base k) := by
  refine ⟨?_, ?_, ?_⟩
  · intro o₁ o₂ h1 h2 h3 h4
    obtain ⟨p1, ty1, r1, s1, tk1⟩ := o₁
    obtain ⟨p2, ty2, r2, s2, tk2⟩ := o₂
    simp only at h1 h2 h3 h4
    subst h1; subst h2; subst h3; subst h4
    rfl
  · intro o s hr hs hsne
    simp [buildArgs, hr, hs, hsne]
  · intro o t base htok htne
    constructor
    · simp [childEnv, htok, htne]
    · intro k hk
      simp [childEnv, htok, htne, hk]

/-- Claim C9 witness: two requests differing only in the token produce the
same argument list, with the token absent from it and present only in the
child environment under `LX_ACCESS_TOKEN`. -/
theorem createTunnel_token_isolation_witness :
    buildArgs ⟨3000, "http", "us", some "myapp", some "secret-token"⟩
      = buildArgs ⟨3000, "http", "us", some "myapp", none⟩
    ∧ buildArgs ⟨3000, "http", "us", some "myapp", some "secret-token"⟩
      = ["tunnel", "http", "--to=3000", "--region=us", "--subdomain=myapp"]
    ∧ childEnv (fun _ => none) ⟨3000, "http", "us", some "myapp", some "secret-token"⟩
        tokenEnvVar = some "secret-token"
    ∧ childEnv (fun _ => none) ⟨3000, "http", "us", some "myapp", some "secret-token"⟩
        "PATH" = none := by
  refine ⟨?_, ?_, ?_, ?_⟩
  · exact createTunnel_token_isolation.1 _ _ rfl rfl rfl rfl
  · exact createTunnel_token_isolation.2.1 _ "myapp" (by decide) rfl (by decide)
  · exact (createTunnel_token_isolation.2.2 _ "secret-token" _ rfl (by decide)).1
  · exact (createTunnel_token_isolation.2.2 _ "secret-token" _ rfl (by decide)).2
      "PATH" (by decide)

end LXAction
